import Mathlib

/-!
Shallow embedding of the PharmaGuard pharmacogenomic pipeline
(`src/core/vcf_parser.py`, `src/core/llm_engine.py`, `src/app.py`).

Python strings are modelled as `List Char` during processing and `String`
in record fields; byte streams as `List Nat` (each entry one byte).
Numbers appearing in JSON are modelled as exact decimals `m * 10 ^ e`
(the code never performs arithmetic on them besides a display-only
scaling, so no floating-point rounding is ever exercised).
-/

set_option maxRecDepth 16384

namespace Drugo

/-! ## Python primitive helpers -/

/-- Model of "str.upper" restricted to ASCII letters.  All gene names that
can ever pass the target-set membership test below are pure ASCII, so this
restriction does not affect any statement in this development. -/
def asciiUpper (c : Char) : Char :=
  if 'a' ≤ c && c ≤ 'z' then Char.ofNat (c.toNat - 32) else c

/-- Substring test on char lists: model of the Python operator
"needle in hay". -/
def listContainsSub (needle : List Char) : List Char → Bool
  | [] => needle.isEmpty
  | c :: t => needle.isPrefixOf (c :: t) || listContainsSub needle t

/-- Model of the Python operator "needle in hay" on strings. -/
def pyInStr (needle hay : String) : Bool :=
  listContainsSub needle.data hay.data

/-- Characters the Python "str.splitlines" treats as line breaks. -/
def lineBreakChar (c : Char) : Bool :=
  c = '\n' || c = '\r' || c = '\x0b' || c = '\x0c' || c = '\x1c' ||
  c = '\x1d' || c = '\x1e' || c = '\x85' || c = '\u2028' || c = '\u2029'

/-- Worker for `pySplitlines`; `cur` is the current line, reversed. -/
def pySplitlinesAux (cur : List Char) : List Char → List (List Char)
  | [] => if cur.isEmpty then [] else [cur.reverse]
  | '\r' :: '\n' :: rest => cur.reverse :: pySplitlinesAux [] rest
  | c :: rest =>
    if lineBreakChar c then cur.reverse :: pySplitlinesAux [] rest
    else pySplitlinesAux (c :: cur) rest

/-- Model of Python "str.splitlines": a trailing line is emitted only when
nonempty, a "\r\n" pair counts as a single break. -/
def pySplitlines (s : List Char) : List (List Char) :=
  pySplitlinesAux [] s

/-- Worker for `pySplitChar`; `cur` is the current field, reversed. -/
def pySplitCharAux (sep : Char) (cur : List Char) : List Char → List (List Char)
  | [] => [cur.reverse]
  | c :: rest =>
    if c = sep then cur.reverse :: pySplitCharAux sep [] rest
    else pySplitCharAux sep (c :: cur) rest

/-- Model of Python "str.split(sep)" with a one-character separator:
empty fields are preserved and the empty string splits to `[[]]`. -/
def pySplitChar (sep : Char) (s : List Char) : List (List Char) :=
  pySplitCharAux sep [] s

/-- Continuation-byte test for UTF-8 (0x80–0xBF). -/
def contByte (b : Nat) : Bool := 0x80 ≤ b && b < 0xC0

/-- Strict UTF-8 decoder, modelling Python "bytes.decode('utf-8')":
rejects bad start bytes, missing or malformed continuation bytes,
overlong encodings, surrogate code points and values above U+10FFFF.
Returns `none` exactly when Python raises `UnicodeDecodeError`. -/
def utf8Decode : List Nat → Option (List Char)
  | [] => some []
  | b :: rest =>
    if b < 0x80 then
      (utf8Decode rest).map (fun cs => Char.ofNat b :: cs)
    else if b < 0xC2 then none
    else if b < 0xE0 then
      match rest with
      | b1 :: r =>
        if contByte b1 then
          (utf8Decode r).map (fun cs =>
            Char.ofNat ((b - 0xC0) * 0x40 + (b1 - 0x80)) :: cs)
        else none
      | [] => none
    else if b < 0xF0 then
      match rest with
      | b1 :: b2 :: r =>
        let cp := (b - 0xE0) * 0x1000 + (b1 - 0x80) * 0x40 + (b2 - 0x80)
        if contByte b1 && contByte b2 && 0x800 ≤ cp &&
            !(0xD800 ≤ cp && cp ≤ 0xDFFF) then
          (utf8Decode r).map (fun cs => Char.ofNat cp :: cs)
        else none
      | _ => none
    else if b < 0xF5 then
      match rest with
      | b1 :: b2 :: b3 :: r =>
        let cp := (b - 0xF0) * 0x40000 + (b1 - 0x80) * 0x1000 +
          (b2 - 0x80) * 0x40 + (b3 - 0x80)
        if contByte b1 && contByte b2 && contByte b3 &&
            0x10000 ≤ cp && cp ≤ 0x10FFFF then
          (utf8Decode r).map (fun cs => Char.ofNat cp :: cs)
        else none
      | _ => none
    else none

/-- Standard UTF-8 encoding of one scalar value (used to build concrete
byte-stream inputs for the theorems below). -/
def utf8EncodeChar (c : Char) : List Nat :=
  let n := c.toNat
  if n < 0x80 then [n]
  else if n < 0x800 then [0xC0 + n / 0x40, 0x80 + n % 0x40]
  else if n < 0x10000 then
    [0xE0 + n / 0x1000, 0x80 + (n / 0x40) % 0x40, 0x80 + n % 0x40]
  else
    [0xF0 + n / 0x40000, 0x80 + (n / 0x1000) % 0x40,
     0x80 + (n / 0x40) % 0x40, 0x80 + n % 0x40]

/-- UTF-8 encoding of a character sequence. -/
def utf8Encode (s : List Char) : List Nat :=
  s.flatMap utf8EncodeChar

/-! ## Error taxonomy

Python exceptions that the modelled code can raise or receive:
"UnicodeDecodeError" from decoding, "json.JSONDecodeError" from
"json.loads", "TypeError" from item assignment on a non-dict, and any
error raised by the external generative-AI client (network, timeout,
API failure), carried here with its message. -/

inductive PyError where
  | unicodeDecodeError
  | jsonDecodeError
  | typeError
  | apiError (msg : String)
  deriving Repr, DecidableEq

/-- Abstract rendering of Python "str(e)" for the modelled exceptions;
only its use inside the per-drug error message matters here. -/
def pyStr : PyError → String
  | .unicodeDecodeError => "invalid utf-8"
  | .jsonDecodeError => "Expecting value"
  | .typeError => "item assignment on non-dict"
  | .apiError m => m

/-! ## src/core/vcf_parser.py -/

/-- One extracted variant, mirroring the dict appended by `parse_vcf`
(keys in insertion order). -/
structure VariantRecord where
  gene : String
  star_allele : String
  rsid : String
  chromosome : String
  position : String
  deriving Repr, DecidableEq

/-- TARGET_GENES: the fixed set of six pharmacogenes (a Python set;
only membership is ever used, so a list model is faithful). -/
def TARGET_GENES : List String :=
  ["CYP2D6", "CYP2C19", "CYP2C9", "SLCO1B1", "TPMT", "DPYD"]

/-- Attempted match of the regular expression "KEY=([^;]+)" anchored at the
start of `s` (`key` is the literal "KEY=" part): if `key` is a prefix, the
capture is the maximal run of non-';' characters after it, and the match
succeeds only when that run is nonempty. -/
def tagValueAt (key s : List Char) : Option (List Char) :=
  if key.isPrefixOf s then
    let v := (s.drop key.length).takeWhile (fun c => c != ';')
    if v.isEmpty then none else some v
  else none

/-- Model of "re.search(r'KEY=([^;]+)', s)": scan start positions left to
right and return the first successful capture, as the Python regex engine
does for this pattern. -/
def reSearchTag (key : List Char) : List Char → Option (List Char)
  | [] => tagValueAt key []
  | c :: t =>
    match tagValueAt key (c :: t) with
    | some v => some v
    | none => reSearchTag key t

/-- Processing of one line of the decoded file inside `parse_vcf`'s loop:
header lines, short lines, lines missing one of the three tags and lines
whose (upper-cased) gene is not a target yield no record. -/
def processLine (line : List Char) : Option VariantRecord :=
  if line.head? = some '#' then none
  else
    let columns := pySplitChar '\t' line
    if columns.length < 8 then none
    else
      let info := columns.getD 7 []
      match reSearchTag "GENE=".data info, reSearchTag "STAR=".data info,
          reSearchTag "RS=".data info with
      | some g, some star, some rs =>
        let gene := (g.map asciiUpper).asString
        if TARGET_GENES.contains gene then
          some ⟨gene, star.asString, rs.asString,
            (columns.getD 0 []).asString, (columns.getD 1 []).asString⟩
        else none
      | _, _, _ => none

/-- parse_vcf: decode the byte stream as UTF-8 (the only failure), split
into lines and accumulate the records of the surviving lines in order. -/
def parse_vcf (file_bytes : List Nat) : Except PyError (List VariantRecord) :=
  match utf8Decode file_bytes with
  | none => .error .unicodeDecodeError
  | some chars => .ok ((pySplitlines chars).filterMap processLine)

/-- determine_phenotype: filter to the primary gene, wild-type default on
an empty filter, otherwise first record wins and the phenotype is routed
by substring tests on its star allele. -/
def determine_phenotype (variants : List VariantRecord)
    (primary_gene : String) : String × String :=
  let gene_variants := variants.filter (fun v => v.gene == primary_gene)
  match gene_variants with
  | [] => ("*1/*1", "Normal Metabolizer (NM)")
  | v :: _ =>
    let star := v.star_allele
    let diplotype := "*1/" ++ star
    let phenotype :=
      if pyInStr "2" star || pyInStr "3" star then "Poor Metabolizer (PM)"
      else if pyInStr "17" star then "Ultrarapid Metabolizer (URM)"
      else "Intermediate Metabolizer (IM)"
    (diplotype, phenotype)

/-! ## JSON values

Model of the Python JSON data reachable in this pipeline.  A JSON number
is kept as the exact decimal `m * 10 ^ e`; the code never computes with
these numbers (the dashboard's display-only scaling aside), so the
int/float distinction of Python is not observable here. -/

inductive Json where
  | null
  | jbool (b : Bool)
  | num (m : Int) (e : Int)
  | str (s : String)
  | arr (elems : List Json)
  | obj (members : List (String × Json))
  deriving Repr

/-- Python dict item assignment on an association list: replace the value
in place when the key exists (keeping its position, as CPython dicts do),
otherwise append the pair. -/
def objInsert (kvs : List (String × Json)) (k : String) (v : Json) :
    List (String × Json) :=
  if kvs.any (fun kv => kv.1 == k) then
    kvs.map (fun kv => if kv.1 == k then (k, v) else kv)
  else kvs ++ [(k, v)]

/-- Python dict subscript read `j[k]` (only meaningful on objects). -/
def jsonGet (j : Json) (k : String) : Option Json :=
  match j with
  | .obj kvs => (kvs.find? (fun kv => kv.1 == k)).map (fun kv => kv.2)
  | _ => none

/-- Python item assignment `j[k] = v`: a `TypeError` on anything that is
not a dict (as `report_json["timestamp"] = ...` would raise when
`json.loads` produced a non-object). -/
def jsonSetKey (j : Json) (k : String) (v : Json) : Except PyError Json :=
  match j with
  | .obj kvs => .ok (.obj (objInsert kvs k v))
  | _ => .error .typeError

/-! ## json.loads

A direct model of Python's JSON acceptor (the grammar of RFC 8259 with
Python's strictness: no trailing data, no control characters inside
strings, duplicate object keys resolved last-one-wins).  Two deliberate
gaps, neither reachable in this development: the NaN/Infinity extensions
are not modelled, and a lone escaped surrogate is rejected rather than
materialised (a Lean `Char` cannot carry one). -/

/-- Whitespace characters of the JSON grammar. -/
def jsonWs (c : Char) : Bool :=
  c = ' ' || c = '\t' || c = '\n' || c = '\r'

/-- Droping of leading JSON whitespace. -/
def skipWs (s : List Char) : List Char := s.dropWhile jsonWs

/-- Leading run of decimal digits, as digit values. -/
def spanDigits : List Char → List Nat × List Char
  | [] => ([], [])
  | c :: t =>
    if '0' ≤ c && c ≤ '9' then
      let p := spanDigits t
      ((c.toNat - 48) :: p.1, p.2)
    else ([], c :: t)

/-- Value of a digit-value list read in base 10. -/
def digitsToNat (ds : List Nat) : Nat :=
  ds.foldl (fun a d => a * 10 + d) 0

/-- Optional exponent part `[eE][+-]?digits`; consumed only when complete,
mirroring the scanner's regular expression. -/
def parseExponent (s : List Char) : Int × List Char :=
  match s with
  | c :: t =>
    if c = 'e' || c = 'E' then
      let p : Int × List Char :=
        match t with
        | '+' :: u => (1, u)
        | '-' :: u => (-1, u)
        | _ => (1, t)
      let q := spanDigits p.2
      if q.1.isEmpty then (0, s) else (p.1 * (digitsToNat q.1 : Int), q.2)
    else (0, s)
  | [] => (0, [])

/-- JSON number scanner `-?(0|[1-9][0-9]*)(\.[0-9]+)?([eE][+-]?[0-9]+)?`,
returning the exact decimal `(mantissa, exponent)` and the rest. -/
def parseNumber (s : List Char) : Option ((Int × Int) × List Char) :=
  let p0 : Bool × List Char :=
    match s with
    | '-' :: t => (true, t)
    | _ => (false, s)
  let p1 : List Nat × List Char :=
    match p0.2 with
    | '0' :: t => ([0], t)
    | _ => spanDigits p0.2
  if p1.1.isEmpty then none
  else
    let p2 : List Nat × List Char :=
      match p1.2 with
      | '.' :: t =>
        let q := spanDigits t
        if q.1.isEmpty then ([], p1.2) else q
      | _ => ([], p1.2)
    let p3 := parseExponent p2.2
    let mant : Nat := digitsToNat p1.1 * 10 ^ p2.1.length + digitsToNat p2.1
    let m : Int := if p0.1 then -(mant : Int) else (mant : Int)
    some ((m, p3.1 - (p2.1.length : Int)), p3.2)

/-- Value of one hexadecimal digit. -/
def hexVal (c : Char) : Option Nat :=
  if '0' ≤ c && c ≤ '9' then some (c.toNat - 48)
  else if 'a' ≤ c && c ≤ 'f' then some (c.toNat - 87)
  else if 'A' ≤ c && c ≤ 'F' then some (c.toNat - 55)
  else none

/-- Value of a four-hex-digit group. -/
def hex4 (a b c d : Char) : Option Nat :=
  match hexVal a, hexVal b, hexVal c, hexVal d with
  | some x, some y, some z, some w => some (((x * 16 + y) * 16 + z) * 16 + w)
  | _, _, _, _ => none

/-- Body of a JSON string after the opening quote: plain characters above
U+001F, the short escapes, and four-hex-digit escapes with surrogate
pairs combined. -/
def parseStringBody : List Char → Option (List Char × List Char)
  | [] => none
  | '"' :: rest => some ([], rest)
  | '\\' :: esc =>
    match esc with
    | '"' :: r => (parseStringBody r).map (fun p => ('"' :: p.1, p.2))
    | '\\' :: r => (parseStringBody r).map (fun p => ('\\' :: p.1, p.2))
    | '/' :: r => (parseStringBody r).map (fun p => ('/' :: p.1, p.2))
    | 'b' :: r => (parseStringBody r).map (fun p => ('\x08' :: p.1, p.2))
    | 'f' :: r => (parseStringBody r).map (fun p => ('\x0c' :: p.1, p.2))
    | 'n' :: r => (parseStringBody r).map (fun p => ('\n' :: p.1, p.2))
    | 'r' :: r => (parseStringBody r).map (fun p => ('\r' :: p.1, p.2))
    | 't' :: r => (parseStringBody r).map (fun p => ('\t' :: p.1, p.2))
    | 'u' :: a :: b :: c :: d :: r =>
      match hex4 a b c d with
      | none => none
      | some n =>
        if 0xD800 ≤ n && n ≤ 0xDBFF then
          match r with
          | '\\' :: 'u' :: a2 :: b2 :: c2 :: d2 :: r2 =>
            match hex4 a2 b2 c2 d2 with
            | some n2 =>
              if 0xDC00 ≤ n2 && n2 ≤ 0xDFFF then
                (parseStringBody r2).map (fun p =>
                  (Char.ofNat (0x10000 + (n - 0xD800) * 0x400 + (n2 - 0xDC00))
                    :: p.1, p.2))
              else none
            | none => none
          | _ => none
        else if 0xDC00 ≤ n && n ≤ 0xDFFF then none
        else (parseStringBody r).map (fun p => (Char.ofNat n :: p.1, p.2))
    | _ => none
  | c :: rest =>
    if c.toNat < 0x20 then none
    else (parseStringBody rest).map (fun p => (c :: p.1, p.2))

mutual

/-- One JSON value (fuel-indexed; the fuel bounds nesting and is chosen
large enough at the top level). -/
def parseJ : Nat → List Char → Option (Json × List Char)
  | 0, _ => none
  | fuel + 1, s =>
    match skipWs s with
    | '\x7b' :: t =>
      match skipWs t with
      | '\x7d' :: r => some (.obj [], r)
      | _ => parseMembers fuel t []
    | '[' :: t =>
      match skipWs t with
      | ']' :: r => some (.arr [], r)
      | _ => parseElems fuel t []
    | '"' :: t => (parseStringBody t).map (fun p => (.str p.1.asString, p.2))
    | 't' :: 'r' :: 'u' :: 'e' :: r => some (.jbool true, r)
    | 'f' :: 'a' :: 'l' :: 's' :: 'e' :: r => some (.jbool false, r)
    | 'n' :: 'u' :: 'l' :: 'l' :: r => some (.null, r)
    | t => (parseNumber t).map (fun p => (.num p.1.1 p.1.2, p.2))

/-- Comma-separated array elements, after `[`. -/
def parseElems : Nat → List Char → List Json → Option (Json × List Char)
  | 0, _, _ => none
  | fuel + 1, s, acc =>
    match parseJ fuel s with
    | none => none
    | some (v, r) =>
      match skipWs r with
      | ',' :: r2 => parseElems fuel r2 (acc ++ [v])
      | ']' :: r2 => some (.arr (acc ++ [v]), r2)
      | _ => none

/-- Comma-separated object members, after a `\x7b` not followed by `\x7d`;
duplicate keys overwrite as Python dict insertion does. -/
def parseMembers : Nat → List Char → List (String × Json) →
    Option (Json × List Char)
  | 0, _, _ => none
  | fuel + 1, s, acc =>
    match skipWs s with
    | '"' :: t =>
      match parseStringBody t with
      | none => none
      | some (k, r) =>
        match skipWs r with
        | ':' :: r2 =>
          match parseJ fuel r2 with
          | none => none
          | some (v, r3) =>
            let acc2 := objInsert acc k.asString v
            match skipWs r3 with
            | ',' :: r4 => parseMembers fuel r4 acc2
            | '\x7d' :: r4 => some (.obj acc2, r4)
            | _ => none
        | _ => none
    | _ => none

end

/-- json.loads: parse one value and require only whitespace after it;
any other outcome raises `json.JSONDecodeError`. -/
def jsonLoads (s : String) : Except PyError Json :=
  match parseJ (2 * s.data.length + 2) s.data with
  | some (v, rest) =>
    if (skipWs rest).isEmpty then .ok v else .error .jsonDecodeError
  | none => .error .jsonDecodeError

/-- Numeric value of a JSON number node, as an exact rational. -/
def jsonNumVal : Json → Option ℚ
  | .num m e =>
    some (if 0 ≤ e then (m : ℚ) * ((10 ^ e.toNat : ℕ) : ℚ)
      else (m : ℚ) / ((10 ^ (-e).toNat : ℕ) : ℚ))
  | _ => none

/-! ## json.dumps of the raw variant list (used in the prompt) -/

/-- Hexadecimal digit character, lower case as Python emits. -/
def hexDigitChar (n : Nat) : Char :=
  if n < 10 then Char.ofNat (48 + n) else Char.ofNat (87 + n)

/-- Four-hex-digit escape of one code unit. -/
def uEscape (n : Nat) : String :=
  ⟨['\\', 'u', hexDigitChar (n / 4096 % 16), hexDigitChar (n / 256 % 16),
    hexDigitChar (n / 16 % 16), hexDigitChar (n % 16)]⟩

/-- Escaping of one character under json.dumps defaults (ensure_ascii):
quote, backslash and controls use escapes, anything outside the printable
ASCII range becomes a four-hex-digit escape (a surrogate pair beyond the
basic plane). -/
def pyJsonEscapeChar (c : Char) : String :=
  if c = '"' then "\\\""
  else if c = '\\' then "\\\\"
  else if c = '\x08' then "\\b"
  else if c = '\x0c' then "\\f"
  else if c = '\n' then "\\n"
  else if c = '\r' then "\\r"
  else if c = '\t' then "\\t"
  else if c.toNat < 0x20 || 0x7F ≤ c.toNat then
    if c.toNat < 0x10000 then uEscape c.toNat
    else
      uEscape (0xD800 + (c.toNat - 0x10000) / 0x400) ++
        uEscape (0xDC00 + (c.toNat - 0x10000) % 0x400)
  else c.toString

/-- json.dumps of a Python string. -/
def pyJsonDumpsStr (s : String) : String :=
  "\"" ++ String.join (s.data.map pyJsonEscapeChar) ++ "\""

/-- json.dumps of one variant dict, keys in the insertion order of
`parse_vcf` and the default ", " / ": " separators. -/
def dumpsVariant (v : VariantRecord) : String :=
  "\x7b\"gene\": " ++ pyJsonDumpsStr v.gene ++
  ", \"star_allele\": " ++ pyJsonDumpsStr v.star_allele ++
  ", \"rsid\": " ++ pyJsonDumpsStr v.rsid ++
  ", \"chromosome\": " ++ pyJsonDumpsStr v.chromosome ++
  ", \"position\": " ++ pyJsonDumpsStr v.position ++ "\x7d"

/-- json.dumps of the raw variant list. -/
def dumpsVariantList (vs : List VariantRecord) : String :=
  "[" ++ String.intercalate ", " (vs.map dumpsVariant) ++ "]"

/-! ## src/core/llm_engine.py -/

/-- Prompt f-string of `generate_pharmacogenomic_report`, transcribed
verbatim (the triple-quoted literal keeps its leading newline, the
four-space indents, the whitespace-only lines and one trailing space). -/
def mkPrompt (patient_id drug : String) (variants : List VariantRecord)
    (target_gene diplotype phenotype : String) : String :=
  "\n    Act as an expert Pharmacogenomic AI and Clinical Geneticist.\n" ++
  "    Analyze the following patient data according to strict CPIC guidelines.\n" ++
  "    \n" ++
  "    Patient ID: " ++ patient_id ++ "\n" ++
  "    Target Drug: " ++ drug ++ "\n" ++
  "    Target Gene: " ++ target_gene ++ "\n" ++
  "    Detected Diplotype: " ++ diplotype ++ "\n" ++
  "    Phenotype: " ++ phenotype ++ "\n" ++
  "    Raw Variants: " ++ dumpsVariantList variants ++ "\n" ++
  "    \n" ++
  "    Generate a precise clinical risk assessment, actionable recommendations, and a detailed biological explanation citing the specific variants. \n" ++
  "    You must output valid JSON strictly conforming to the requested schema.\n" ++
  "    "

/-- generate_pharmacogenomic_report: build the prompt, obtain the external
collaborator's text (`model.generate_content`, here an opaque oracle that
may fail with any client error) and return `json.loads` of that text.
The `genai.configure` call and the environment read have no effect on the
returned value and are not modelled.  Note the function performs no
validation of its own: the Pydantic schema classes of the source are only
transmitted to the remote service as generation configuration. -/
def generate_pharmacogenomic_report (patient_id drug : String)
    (variants : List VariantRecord) (target_gene diplotype phenotype : String)
    (generate_content : String → Except PyError String) :
    Except PyError Json :=
  let prompt := mkPrompt patient_id drug variants target_gene diplotype phenotype
  match generate_content prompt with
  | .error e => .error e
  | .ok text => jsonLoads text

/-! ## src/app.py (analysis loop) -/

/-- Keys of DRUG_GENE_MAP (the multiselect offers exactly these). -/
inductive Drug where
  | codeine
  | warfarin
  | clopidogrel
  | simvastatin
  | azathioprine
  | fluorouracil
  deriving Repr, DecidableEq

/-- Display/key name of each drug. -/
def drugName : Drug → String
  | .codeine => "CODEINE"
  | .warfarin => "WARFARIN"
  | .clopidogrel => "CLOPIDOGREL"
  | .simvastatin => "SIMVASTATIN"
  | .azathioprine => "AZATHIOPRINE"
  | .fluorouracil => "FLUOROURACIL"

/-- DRUG_GENE_MAP of src/app.py. -/
def DRUG_GENE_MAP : Drug → String
  | .codeine => "CYP2D6"
  | .warfarin => "CYP2C9"
  | .clopidogrel => "CYP2C19"
  | .simvastatin => "SLCO1B1"
  | .azathioprine => "TPMT"
  | .fluorouracil => "DPYD"

/-- Body of one iteration of the analysis loop (the `try` block):
classify, call the engine, then overwrite the timestamp with the local
wall clock (`now` is the `datetime.utcnow().isoformat()` reading; the
code appends the literal "Z").  Any raised error is the `except` value. -/
def drugStep (patient_id : String) (variants : List VariantRecord)
    (oracle : Drug → String → Except PyError String) (now : String)
    (d : Drug) : Except PyError Json :=
  let target_gene := DRUG_GENE_MAP d
  let dp := determine_phenotype variants target_gene
  match generate_pharmacogenomic_report patient_id (drugName d) variants
      target_gene dp.1 dp.2 (oracle d) with
  | .error e => .error e
  | .ok report_json => jsonSetKey report_json "timestamp" (.str (now ++ "Z"))

/-- Analysis loop over the selected drugs: successes are appended to
`results` as `(drug, report)` pairs, failures are rendered with
`st.error` (collected here as the second component) and the loop
continues with the next drug. -/
def analysisLoop (patient_id : String) (variants : List VariantRecord)
    (drugs : List Drug) (oracle : Drug → String → Except PyError String)
    (now : String) : List (Drug × Json) × List String :=
  drugs.foldl (fun acc d =>
    match drugStep patient_id variants oracle now d with
    | .ok r => (acc.1 ++ [(d, r)], acc.2)
    | .error e =>
      (acc.1, acc.2 ++ ["Error processing " ++ drugName d ++ ": " ++ pyStr e]))
    ([], [])

/-! ## Small observers used by theorem statements -/

/-- Success test for a modelled Python call. -/
def exceptIsOk : Except PyError Json → Bool
  | .ok _ => true
  | .error _ => false

/-- Two-level field read on the outcome of a modelled call. -/
def reportField2 (r : Except PyError Json) (k1 k2 : String) : Option Json :=
  match r with
  | .ok j => (jsonGet j k1).bind (fun x => jsonGet x k2)
  | .error _ => none

/-- Numeric two-level field read. -/
def reportFieldVal (r : Except PyError Json) (k1 k2 : String) : Option ℚ :=
  (reportField2 r k1 k2).bind jsonNumVal

/-! ## Helper lemmas on the classifier -/

/-- Filtering by a gene no record carries gives the empty list. -/
lemma filter_no_match (vs : List VariantRecord) (pg : String)
    (h : ∀ v ∈ vs, v.gene ≠ pg) :
    vs.filter (fun v => v.gene == pg) = [] := by
  rw [List.filter_eq_nil_iff]
  intro v hv
  simp [h v hv]

/-- Wild-type default branch of `determine_phenotype`. -/
lemma determine_phenotype_no_match (vs : List VariantRecord) (pg : String)
    (h : ∀ v ∈ vs, v.gene ≠ pg) :
    determine_phenotype vs pg = ("*1/*1", "Normal Metabolizer (NM)") := by
  simp only [determine_phenotype, filter_no_match vs pg h]

/-- Non-empty-filter branch of `determine_phenotype`, explicitly. -/
lemma determine_phenotype_cons (vs : List VariantRecord) (pg : String)
    (v : VariantRecord) (rest : List VariantRecord)
    (h : vs.filter (fun x => x.gene == pg) = v :: rest) :
    determine_phenotype vs pg =
      ("*1/" ++ v.star_allele,
       if pyInStr "2" v.star_allele || pyInStr "3" v.star_allele then
         "Poor Metabolizer (PM)"
       else if pyInStr "17" v.star_allele then "Ultrarapid Metabolizer (URM)"
       else "Intermediate Metabolizer (IM)") := by
  simp only [determine_phenotype, h]

/-- Filtering a concatenation whose left part has no match and whose right
part starts with a match begins with that matching record. -/
lemma filter_first_match (pre suf : List VariantRecord) (v : VariantRecord)
    (pg : String) (hpre : ∀ w ∈ pre, w.gene ≠ pg) (hv : v.gene = pg) :
    (pre ++ v :: suf).filter (fun x => x.gene == pg) =
      v :: suf.filter (fun x => x.gene == pg) := by
  rw [List.filter_append, filter_no_match pre pg hpre]
  simp [hv]

/-! ## Claims on the phenotype classifier -/

/-- C4: for every variant sequence with at least one record matching the
primary gene, the phenotype is derived from the representative star-allele
token by fixed-priority substring rules, first match wins: a token
containing substring "2" or substring "3" gives Poor Metabolizer (PM);
otherwise a token containing substring "17" gives Ultrarapid Metabolizer
(URM); otherwise Intermediate Metabolizer (IM).  Concretely, allele "*3"
gives PM, "*17" gives URM, "*4" gives IM, and "*2" gives PM. -/
theorem phenotype_substring_priority (vs : List VariantRecord) (pg : String)
    (v : VariantRecord) (rest : List VariantRecord)
    (h : vs.filter (fun x => x.gene == pg) = v :: rest) :
    ((determine_phenotype vs pg).2 =
      if pyInStr "2" v.star_allele || pyInStr "3" v.star_allele then
        "Poor Metabolizer (PM)"
      else if pyInStr "17" v.star_allele then "Ultrarapid Metabolizer (URM)"
      else "Intermediate Metabolizer (IM)")
    ∧ ∀ g r c p : String,
      (determine_phenotype [⟨g, "*3", r, c, p⟩] g).2 = "Poor Metabolizer (PM)"
      ∧ (determine_phenotype [⟨g, "*17", r, c, p⟩] g).2 =
          "Ultrarapid Metabolizer (URM)"
      ∧ (determine_phenotype [⟨g, "*4", r, c, p⟩] g).2 =
          "Intermediate Metabolizer (IM)"
      ∧ (determine_phenotype [⟨g, "*2", r, c, p⟩] g).2 =
          "Poor Metabolizer (PM)" := by
  constructor
  · rw [determine_phenotype_cons vs pg v rest h]
  · intro g r c p
    have h3 := determine_phenotype_cons [⟨g, "*3", r, c, p⟩] g
      ⟨g, "*3", r, c, p⟩ [] (by simp)
    have h17 := determine_phenotype_cons [⟨g, "*17", r, c, p⟩] g
      ⟨g, "*17", r, c, p⟩ [] (by simp)
    have h4 := determine_phenotype_cons [⟨g, "*4", r, c, p⟩] g
      ⟨g, "*4", r, c, p⟩ [] (by simp)
    have h2 := determine_phenotype_cons [⟨g, "*2", r, c, p⟩] g
      ⟨g, "*2", r, c, p⟩ [] (by simp)
    refine ⟨?_, ?_, ?_, ?_⟩ <;> simp only [h3, h17, h4, h2] <;> rfl

/-- Witness for C4 at a concrete input: one CYP2D6/*3 record. -/
theorem phenotype_substring_priority_witness :
    (determine_phenotype [⟨"CYP2D6", "*3", "rs123", "1", "100"⟩] "CYP2D6").2 =
      "Poor Metabolizer (PM)" := by
  have h := phenotype_substring_priority [⟨"CYP2D6", "*3", "rs123", "1", "100"⟩]
    "CYP2D6" ⟨"CYP2D6", "*3", "rs123", "1", "100"⟩ [] (by rfl)
  rw [h.1]
  decide

/-- C5: for every variant sequence and every primary_gene such that no
variant's gene equals primary_gene (including any primary_gene outside
the fixed target-gene set, which is not validated), classify returns
exactly the wild-type default ("*1/*1", Normal Metabolizer (NM)).
Raising no exception is inherent: `determine_phenotype` is a total Lean
function, as the Python code has no raising operation on this path. -/
theorem classify_wild_type_default (vs : List VariantRecord) (pg : String)
    (h : ∀ v ∈ vs, v.gene ≠ pg) :
    determine_phenotype vs pg = ("*1/*1", "Normal Metabolizer (NM)") :=
  determine_phenotype_no_match vs pg h

/-- Witness for C5: a non-target gene name against a non-empty sequence. -/
theorem classify_wild_type_default_witness :
    determine_phenotype [⟨"CYP2D6", "*3", "rs123", "1", "100"⟩] "FAKEGENE" =
      ("*1/*1", "Normal Metabolizer (NM)") :=
  classify_wild_type_default [⟨"CYP2D6", "*3", "rs123", "1", "100"⟩]
    "FAKEGENE" (by decide)

/-- C6: for every variant sequence containing at least one record whose
gene equals primary_gene, classify selects the star_allele of the first
such record in extractor order (earliest record wins, regardless of the
alleles of any later matching records) and returns the diplotype "*1/"
concatenated with that star_allele. -/
theorem classify_first_match_wins (pre suf : List VariantRecord)
    (v : VariantRecord) (pg : String)
    (hpre : ∀ w ∈ pre, w.gene ≠ pg) (hv : v.gene = pg) :
    (determine_phenotype (pre ++ v :: suf) pg).1 = "*1/" ++ v.star_allele := by
  rw [determine_phenotype_cons (pre ++ v :: suf) pg v
    (suf.filter (fun x => x.gene == pg))
    (filter_first_match pre suf v pg hpre hv)]

/-- Witness for C6: two same-gene records with different alleles; the
earlier one decides the diplotype. -/
theorem classify_first_match_wins_witness :
    (determine_phenotype
      [⟨"CYP2D6", "*3", "rs1", "1", "100"⟩,
       ⟨"CYP2D6", "*17", "rs2", "1", "200"⟩] "CYP2D6").1 = "*1/" ++ "*3" :=
  classify_first_match_wins [] [⟨"CYP2D6", "*17", "rs2", "1", "200"⟩]
    ⟨"CYP2D6", "*3", "rs1", "1", "100"⟩ "CYP2D6" (by simp) rfl

/-! ## Helper lemmas on the extractor -/

/-- Any of the skip conditions of `parse_vcf`'s loop body yields no
record: header marker, fewer than 8 tab-separated fields, or a failed
search for one of the three annotation tags. -/
lemma processLine_skip (line : List Char)
    (h : line.head? = some '#' ∨ (pySplitChar '\t' line).length < 8 ∨
      reSearchTag "GENE=".data ((pySplitChar '\t' line).getD 7 []) = none ∨
      reSearchTag "STAR=".data ((pySplitChar '\t' line).getD 7 []) = none ∨
      reSearchTag "RS=".data ((pySplitChar '\t' line).getD 7 []) = none) :
    processLine line = none := by
  by_cases h1 : line.head? = some '#'
  · simp [processLine, h1]
  · by_cases h2 : (pySplitChar '\t' line).length < 8
    · simp [processLine, h1, h2]
    · rcases h with h | h | h | h | h
      · exact absurd h h1
      · exact absurd h h2
      · simp only [processLine, if_neg h1, if_neg h2, h]
      · simp only [processLine, if_neg h1, if_neg h2, h]
        cases reSearchTag "GENE=".data ((pySplitChar '\t' line).getD 7 []) <;> rfl
      · simp only [processLine, if_neg h1, if_neg h2, h]
        cases reSearchTag "GENE=".data ((pySplitChar '\t' line).getD 7 []) <;>
          cases reSearchTag "STAR=".data ((pySplitChar '\t' line).getD 7 []) <;> rfl

/-- Any record produced by the loop body carries a target gene. -/
lemma processLine_gene_mem (line : List Char) (v : VariantRecord)
    (h : processLine line = some v) : TARGET_GENES.contains v.gene = true := by
  simp only [processLine] at h
  split at h
  · cases h
  · split at h
    · cases h
    · split at h
      · split at h
        · next hmem =>
          cases h
          exact hmem
        · cases h
      · cases h

/-- Every record in a successful `parse_vcf` run carries a target gene. -/
lemma parse_gene_mem (bytes : List Nat) (vs : List VariantRecord)
    (h : parse_vcf bytes = .ok vs) :
    ∀ v ∈ vs, TARGET_GENES.contains v.gene = true := by
  intro v hv
  unfold parse_vcf at h
  cases hd : utf8Decode bytes with
  | none => rw [hd] at h; cases h
  | some chars =>
    rw [hd] at h
    cases h
    obtain ⟨line, _, hsome⟩ := List.mem_filterMap.mp hv
    exact processLine_gene_mem line v hsome

/-- A tag search fails when every occurrence of the key in the scanned
text is immediately followed by ';' or by the end of the text (the
capture group needs at least one character). -/
lemma reSearchTag_none_of_empty_values (key s : List Char)
    (h : ∀ i, key.isPrefixOf (s.drop i) →
      (s.drop (i + key.length)).takeWhile (fun c => c != ';') = []) :
    reSearchTag key s = none := by
  induction s with
  | nil =>
    have h0 := h 0
    cases hp : key.isPrefixOf ([] : List Char) with
    | true =>
      have := h0 (by simpa using hp)
      simp [reSearchTag, tagValueAt, hp]
    | false => simp [reSearchTag, tagValueAt, hp]
  | cons c t ih =>
    have hrec : reSearchTag key t = none := by
      apply ih
      intro i hpre
      have := h (i + 1) (by simpa [List.drop_succ_cons] using hpre)
      simpa [List.drop_succ_cons, Nat.add_right_comm i 1 key.length] using this
    cases hp : key.isPrefixOf (c :: t) with
    | true =>
      have hv := h 0 (by simpa using hp)
      simp only [List.drop_zero, Nat.zero_add] at hv
      simp [reSearchTag, tagValueAt, hp, hv, hrec]
    | false => simp [reSearchTag, tagValueAt, hp, hrec]

/-! ## Claims on the extractor -/

/-- C7: for every input, extract never raises on malformed content —
header lines starting with '#', lines with fewer than 8 tab-separated
fields, and lines missing any of the GENE=/STAR=/RS= tags are silently
skipped (they produce no record; `parse_vcf` is a total function on the
decoded text) — and the only hard failure, raised exactly when the byte
stream is not decodable as UTF-8, is the decoding error. -/
theorem extract_tolerant (bytes : List Nat) :
    (parse_vcf bytes = .error .unicodeDecodeError ↔ utf8Decode bytes = none)
    ∧ (∀ e, parse_vcf bytes = .error e → e = .unicodeDecodeError)
    ∧ (∀ line : List Char,
        line.head? = some '#' ∨ (pySplitChar '\t' line).length < 8 ∨
          reSearchTag "GENE=".data ((pySplitChar '\t' line).getD 7 []) = none ∨
          reSearchTag "STAR=".data ((pySplitChar '\t' line).getD 7 []) = none ∨
          reSearchTag "RS=".data ((pySplitChar '\t' line).getD 7 []) = none →
        processLine line = none) := by
  refine ⟨?_, ?_, fun line h => processLine_skip line h⟩
  · unfold parse_vcf
    cases hd : utf8Decode bytes <;> simp
  · intro e he
    unfold parse_vcf at he
    cases hd : utf8Decode bytes with
    | none => rw [hd] at he; cases he; rfl
    | some chars => rw [hd] at he; cases he

/-- Witness for C7: an undecodable byte stream fails with the decoding
error; a header line and a short line produce no record. -/
theorem extract_tolerant_witness :
    parse_vcf [0xFF] = .error .unicodeDecodeError
    ∧ processLine "##fileformat=VCFv4.2".data = none
    ∧ processLine "1\t100\tonly three fields".data = none :=
  ⟨(extract_tolerant [0xFF]).1.mpr (by rfl),
   (extract_tolerant []).2.2 "##fileformat=VCFv4.2".data (Or.inl (by rfl)),
   (extract_tolerant []).2.2 "1\t100\tonly three fields".data
     (Or.inr (Or.inl (by decide)))⟩

/-- C9: in extract, an annotation tag whose value is empty (the key
immediately followed by ';' or end of field, e.g. "GENE=;") does not
count as present, because each tag pattern requires at least one
character before the terminator; a data line whose every occurrence of
one of the three required tags is empty-valued therefore produces no
VariantRecord. -/
theorem empty_tag_value_not_present (key line : List Char)
    (hk : key = "GENE=".data ∨ key = "STAR=".data ∨ key = "RS=".data)
    (hempty : ∀ i, i < ((pySplitChar '\t' line).getD 7 []).length →
      key.isPrefixOf (((pySplitChar '\t' line).getD 7 []).drop i) →
      (((pySplitChar '\t' line).getD 7 []).drop (i + key.length)).takeWhile
        (fun c => c != ';') = []) :
    reSearchTag key ((pySplitChar '\t' line).getD 7 []) = none
    ∧ processLine line = none := by
  have hnone : reSearchTag key ((pySplitChar '\t' line).getD 7 []) = none := by
    apply reSearchTag_none_of_empty_values
    intro i hpre
    by_cases hi : i < ((pySplitChar '\t' line).getD 7 []).length
    · exact hempty i hi hpre
    · rw [List.drop_eq_nil_of_le (Nat.le_of_not_lt hi)] at hpre
      rcases hk with h | h | h <;> subst h <;> exact absurd hpre (by decide)
  refine ⟨hnone, processLine_skip line ?_⟩
  rcases hk with h | h | h <;> subst h
  · exact Or.inr (Or.inr (Or.inl hnone))
  · exact Or.inr (Or.inr (Or.inr (Or.inl hnone)))
  · exact Or.inr (Or.inr (Or.inr (Or.inr hnone)))

/-- Witness for C9: a well-formed data line whose GENE tag is
empty-valued yields no record. -/
theorem empty_tag_value_witness :
    processLine "1\t100\trs1\tA\tG\t.\tPASS\tGENE=;STAR=*3;RS=rs123".data =
      none :=
  (empty_tag_value_not_present "GENE=".data
    "1\t100\trs1\tA\tG\t.\tPASS\tGENE=;STAR=*3;RS=rs123".data
    (Or.inl rfl) (by decide)).2

/-- C10: classify compares gene names by case-sensitive string equality
while extract stores every record's gene upper-cased (hence inside the
all-uppercase target set), so for every primary_gene containing a
lowercase ASCII letter (e.g. "cyp2d6"), classify takes the empty-filter
branch and returns the wild-type default ("*1/*1", Normal Metabolizer
(NM)) even when the input contains variants for that gene. -/
theorem classify_case_sensitive_gene (bytes : List Nat)
    (vs : List VariantRecord) (pg : String)
    (hp : parse_vcf bytes = .ok vs)
    (hlow : ∃ c ∈ pg.data, 'a' ≤ c ∧ c ≤ 'z') :
    determine_phenotype vs pg = ("*1/*1", "Normal Metabolizer (NM)") := by
  apply determine_phenotype_no_match
  intro v hv hEq
  have hc := parse_gene_mem bytes vs hp v hv
  rw [hEq] at hc
  have hmem : pg ∈ TARGET_GENES := by
    simpa [List.contains] using hc
  simp only [TARGET_GENES, List.mem_cons, List.not_mem_nil, or_false] at hmem
  rcases hmem with h | h | h | h | h | h <;> subst h <;>
    exact absurd hlow (by decide)

/-- Witness for C10: a file carrying a cyp2d6 variant (upper-cased to
CYP2D6 on extraction) classified against the lowercase name "cyp2d6"
falls back to wild type. -/
theorem classify_case_sensitive_gene_witness :
    determine_phenotype [⟨"CYP2D6", "*4", "rs9", "1", "100"⟩] "cyp2d6" =
      ("*1/*1", "Normal Metabolizer (NM)") :=
  classify_case_sensitive_gene
    (utf8Encode "1\t100\trs9\tA\tG\t.\tPASS\tGENE=cyp2d6;STAR=*4;RS=rs9".data)
    [⟨"CYP2D6", "*4", "rs9", "1", "100"⟩] "cyp2d6" (by rfl) (by decide)

/-! ## Concrete collaborator responses used in the assembler claims -/

/-- Collaborator response that both omits required Report fields
(patient_id, drug, pharmacogenomic_profile, ...) and carries a value
outside the declared risk_label set. -/
def unsafeRespText : String :=
  "\x7b\"risk_assessment\": \x7b\"risk_label\": \"Unsafe\", " ++
  "\"confidence_score\": 0.9, \"severity\": \"low\"\x7d\x7d"

/-- Parsed form of `unsafeRespText`. -/
def unsafeRespJson : Json :=
  .obj [("risk_assessment", .obj
    [("risk_label", .str "Unsafe"), ("confidence_score", .num 9 (-1)),
     ("severity", .str "low")])]

/-- Collaborator response with the given literal as confidence_score. -/
def confRespText (score : String) : String :=
  "\x7b\"risk_assessment\": \x7b\"risk_label\": \"Safe\", " ++
  "\"confidence_score\": " ++ score ++ ", \"severity\": \"low\"\x7d\x7d"

/-- One-level field read on the outcome of a modelled call. -/
def reportField1 (r : Except PyError Json) (k : String) : Option Json :=
  match r with
  | .ok j => jsonGet j k
  | .error _ => none

/-! ## Claims on the report assembler (src/core/llm_engine.py) -/

/-- C1 counterexample: a response that omits required Report fields and
whose risk_label is "Unsafe" (outside the declared enum) is accepted by
`generate_pharmacogenomic_report` — the call succeeds, returns the
invalid data unchanged and its required patient_id field is absent; no
SchemaViolation failure exists on this path. -/
theorem schema_violation_counterexample :
    exceptIsOk (generate_pharmacogenomic_report "P1" "CODEINE" [] "CYP2D6"
      "*1/*1" "Normal Metabolizer (NM)" (fun _ => .ok unsafeRespText)) = true
    ∧ reportField2 (generate_pharmacogenomic_report "P1" "CODEINE" [] "CYP2D6"
        "*1/*1" "Normal Metabolizer (NM)" (fun _ => .ok unsafeRespText))
        "risk_assessment" "risk_label" = some (.str "Unsafe")
    ∧ reportField1 (generate_pharmacogenomic_report "P1" "CODEINE" [] "CYP2D6"
        "*1/*1" "Normal Metabolizer (NM)" (fun _ => .ok unsafeRespText))
        "patient_id" = none :=
  ⟨rfl, rfl, rfl⟩

/-- C1 amended: report assembly performs no local schema validation: any
response text that JSON-decodes is returned as the report exactly as
decoded — including responses missing required fields or carrying enum
values outside their declared sets — and the only locally raised failure
of assembly is the JSON decoding error; no SchemaViolation is raised. -/
theorem no_local_validation (pid drug tg dip ph txt : String)
    (vs : List VariantRecord) (v : Json)
    (h : jsonLoads txt = .ok v) :
    generate_pharmacogenomic_report pid drug vs tg dip ph
      (fun _ => .ok txt) = .ok v := by
  simp only [generate_pharmacogenomic_report]
  exact h

/-- Witness for the amended C1 at the invalid-enum response. -/
theorem no_local_validation_witness :
    generate_pharmacogenomic_report "P1" "CODEINE" [] "CYP2D6" "*1/*1"
      "Normal Metabolizer (NM)" (fun _ => .ok unsafeRespText) =
      .ok unsafeRespJson :=
  no_local_validation "P1" "CODEINE" "CYP2D6" "*1/*1"
    "Normal Metabolizer (NM)" unsafeRespText [] unsafeRespJson (by rfl)

/-- C3 counterexample: an external confidence_score of 95 is stored as
95 (not rescaled to 0.95) and one of 150 is stored as 150 (not clamped
to 1.0); no clamping or rescaling happens before the Report is
accepted. -/
theorem confidence_not_rescaled_counterexample :
    reportField2 (generate_pharmacogenomic_report "P1" "CODEINE" []
        "CYP2D6" "*1/*1" "Normal Metabolizer (NM)"
        (fun _ => .ok (confRespText "95")))
      "risk_assessment" "confidence_score" = some (.num 95 0)
    ∧ jsonNumVal (.num 95 0) = some 95
    ∧ reportField2 (generate_pharmacogenomic_report "P1" "CODEINE" []
        "CYP2D6" "*1/*1" "Normal Metabolizer (NM)"
        (fun _ => .ok (confRespText "150")))
      "risk_assessment" "confidence_score" = some (.num 150 0)
    ∧ jsonNumVal (.num 150 0) = some 150
    ∧ (95 : ℚ) ≠ 95 / 100
    ∧ (150 : ℚ) ≠ 1 := by
  refine ⟨rfl, ?_, rfl, ?_, by norm_num, by norm_num⟩ <;> norm_num [jsonNumVal]

/-- C3 amended: the confidence_score of the accepted Report equals the
collaborator's raw value with no clamping and no rescaling: an external
95 is stored as 95, an external 0.5 is stored as 0.5, and an external
150 is stored as 150 (the dashboard later multiplies the stored value by
100 for its gauge; it never divides). -/
theorem confidence_stored_verbatim (pid drug tg dip ph : String)
    (vs : List VariantRecord) :
    (reportField2 (generate_pharmacogenomic_report pid drug vs tg dip ph
        (fun _ => .ok (confRespText "95")))
      "risk_assessment" "confidence_score" = some (.num 95 0)
      ∧ jsonNumVal (.num 95 0) = some 95)
    ∧ (reportField2 (generate_pharmacogenomic_report pid drug vs tg dip ph
        (fun _ => .ok (confRespText "0.5")))
      "risk_assessment" "confidence_score" = some (.num 5 (-1))
      ∧ jsonNumVal (.num 5 (-1)) = some (1 / 2))
    ∧ (reportField2 (generate_pharmacogenomic_report pid drug vs tg dip ph
        (fun _ => .ok (confRespText "150")))
      "risk_assessment" "confidence_score" = some (.num 150 0)
      ∧ jsonNumVal (.num 150 0) = some 150) := by
  refine ⟨⟨rfl, ?_⟩, ⟨rfl, ?_⟩, ⟨rfl, ?_⟩⟩ <;> norm_num [jsonNumVal]

/-! ## End-to-end scenario input (10-line file, one CYP2D6 data line) -/

/-- Ten-line input: nine header lines and one valid CYP2D6/*3/rs123 data
line with exactly 8 tab-separated fields. -/
def c2FileStr : String :=
  "##fileformat=VCFv4.2\n##h2\n##h3\n##h4\n##h5\n##h6\n##h7\n##h8\n##h9\n" ++
  "1\t100\trs123\tA\tG\t.\tPASS\tGENE=CYP2D6;STAR=*3;RS=rs123"

/-- The ten-line input as a UTF-8 byte stream. -/
def c2Bytes : List Nat := utf8Encode c2FileStr.data

/-- The single record the extractor yields on `c2Bytes`. -/
def c2Record : VariantRecord := ⟨"CYP2D6", "*3", "rs123", "1", "100"⟩

/-- Collaborator response that is a complete, schema-shaped report whose
profile and quality fields contradict the local classifier: diplotype
"*9/*9", an unrelated primary gene, and vcf_parsing_success false. -/
def mismatchRespText : String :=
  "\x7b\"patient_id\": \"X\", \"drug\": \"CODEINE\", " ++
  "\"timestamp\": \"from-collaborator\", " ++
  "\"risk_assessment\": \x7b\"risk_label\": \"Safe\", " ++
  "\"confidence_score\": 0.9, \"severity\": \"low\"\x7d, " ++
  "\"pharmacogenomic_profile\": \x7b\"primary_gene\": \"BRCA1\", " ++
  "\"diplotype\": \"*9/*9\", \"phenotype\": \"Unknown\", " ++
  "\"detected_variants\": []\x7d, " ++
  "\"clinical_recommendation\": \x7b\"action\": \"a\", " ++
  "\"dosage_adjustment\": \"d\", \"alternative_drugs\": []\x7d, " ++
  "\"llm_generated_explanation\": \x7b\"summary\": \"s\", " ++
  "\"biological_mechanism\": \"m\", \"variant_citation\": \"c\"\x7d, " ++
  "\"quality_metrics\": \x7b\"vcf_parsing_success\": false\x7d\x7d"

/-- C2 counterexample: on the ten-line file the extractor yields exactly
one record and the classifier yields ("*1/*3", PM), but the Report's
"deterministic" fields do not come from them — a collaborator response
claiming diplotype "*9/*9" and vcf_parsing_success false is accepted
verbatim, so those Report fields do not equal the classifier's output. -/
theorem deterministic_fields_counterexample :
    parse_vcf c2Bytes = .ok [c2Record]
    ∧ determine_phenotype [c2Record] "CYP2D6" =
        ("*1/*3", "Poor Metabolizer (PM)")
    ∧ exceptIsOk (drugStep "P1" [c2Record]
        (fun _ _ => .ok mismatchRespText) "2030-01-01T00:00:00"
        .codeine) = true
    ∧ reportField2 (drugStep "P1" [c2Record]
        (fun _ _ => .ok mismatchRespText) "2030-01-01T00:00:00" .codeine)
        "pharmacogenomic_profile" "diplotype" = some (.str "*9/*9")
    ∧ reportField2 (drugStep "P1" [c2Record]
        (fun _ _ => .ok mismatchRespText) "2030-01-01T00:00:00" .codeine)
        "quality_metrics" "vcf_parsing_success" = some (.jbool false)
    ∧ ("*9/*9" : String) ≠ "*1/*3" :=
  ⟨rfl, rfl, rfl, rfl, rfl, by decide⟩

/-- C2 amended: on the ten-line file the extractor yields exactly the one
CYP2D6/*3/rs123 record and the classifier yields ("*1/*3", Poor
Metabolizer (PM)); these deterministic values parameterize the prompt,
but the assembled Report is the collaborator's decoded response taken
verbatim with only the timestamp overridden locally — its profile and
quality fields equal the classifier's output only when the collaborator
echoes them. -/
theorem deterministic_pipeline_passthrough (pid now txt : String)
    (kvs : List (String × Json)) (h : jsonLoads txt = .ok (.obj kvs)) :
    parse_vcf c2Bytes = .ok [c2Record]
    ∧ determine_phenotype [c2Record] "CYP2D6" =
        ("*1/*3", "Poor Metabolizer (PM)")
    ∧ drugStep pid [c2Record] (fun _ _ => .ok txt) now .codeine =
        .ok (.obj (objInsert kvs "timestamp" (.str (now ++ "Z")))) := by
  refine ⟨rfl, rfl, ?_⟩
  simp only [drugStep, generate_pharmacogenomic_report, h, jsonSetKey]

/-- Witness for the amended C2 at a small concrete response. -/
theorem deterministic_pipeline_passthrough_witness :
    drugStep "P1" [c2Record] (fun _ _ => .ok "\x7b\"a\": 1\x7d") "T"
        .codeine =
      .ok (.obj (objInsert [("a", .num 1 0)] "timestamp"
        (.str ("T" ++ "Z")))) :=
  (deterministic_pipeline_passthrough "P1" "T" "\x7b\"a\": 1\x7d"
    [("a", .num 1 0)] (by rfl)).2.2

/-! ## Helper lemmas on the analysis loop -/

/-- The analysis loop is the pair of per-drug outcome maps: successes in
selection order and one error line per failing drug. -/
lemma analysisLoop_eq (pid : String) (vs : List VariantRecord)
    (oracle : Drug → String → Except PyError String) (now : String)
    (drugs : List Drug) :
    analysisLoop pid vs drugs oracle now =
      (drugs.filterMap (fun d =>
        match drugStep pid vs oracle now d with
        | .ok r => some (d, r)
        | .error _ => none),
       drugs.filterMap (fun d =>
        match drugStep pid vs oracle now d with
        | .error e =>
          some ("Error processing " ++ drugName d ++ ": " ++ pyStr e)
        | .ok _ => none)) := by
  have key : ∀ (ds : List Drug) (acc : List (Drug × Json) × List String),
      ds.foldl (fun acc d =>
        match drugStep pid vs oracle now d with
        | .ok r => (acc.1 ++ [(d, r)], acc.2)
        | .error e =>
          (acc.1,
           acc.2 ++ ["Error processing " ++ drugName d ++ ": " ++ pyStr e]))
        acc =
      (acc.1 ++ ds.filterMap (fun d =>
        match drugStep pid vs oracle now d with
        | .ok r => some (d, r)
        | .error _ => none),
       acc.2 ++ ds.filterMap (fun d =>
        match drugStep pid vs oracle now d with
        | .error e =>
          some ("Error processing " ++ drugName d ++ ": " ++ pyStr e)
        | .ok _ => none)) := by
    intro ds
    induction ds with
    | nil => intro acc; simp
    | cons d ds ih =>
      intro acc
      simp only [List.foldl_cons, List.filterMap_cons]
      cases hd : drugStep pid vs oracle now d with
      | ok r => rw [ih]; simp
      | error e => rw [ih]; simp
  simpa [analysisLoop] using key drugs ([], [])

/-- Every selected drug contributes exactly one outcome: the success and
failure counts sum to the number of drugs. -/
lemma outcome_count (pid : String) (vs : List VariantRecord)
    (oracle : Drug → String → Except PyError String) (now : String)
    (drugs : List Drug) :
    (analysisLoop pid vs drugs oracle now).1.length +
      (analysisLoop pid vs drugs oracle now).2.length = drugs.length := by
  have h : ∀ ds : List Drug,
      (ds.filterMap (fun d =>
        match drugStep pid vs oracle now d with
        | .ok r => some (d, r)
        | .error _ => none)).length +
      (ds.filterMap (fun d =>
        match drugStep pid vs oracle now d with
        | .error e =>
          some ("Error processing " ++ drugName d ++ ": " ++ pyStr e)
        | .ok _ => none)).length = ds.length := by
    intro ds
    induction ds with
    | nil => rfl
    | cons d ds ih =>
      simp only [List.filterMap_cons]
      cases hd : drugStep pid vs oracle now d <;> simp <;> omega
  rw [analysisLoop_eq]
  exact h drugs

/-! ## Claim on per-drug isolation (src/app.py loop) -/

/-- C8: when several drugs are analyzed for one patient, each drug's
analysis is isolated: the loop's outcome decomposes into independent
per-drug outcomes (one success entry or one error line naming the
offending drug of this patient's batch), the success and failure counts
sum to the number of selected drugs, and changing the collaborator's
behavior at one drug cannot change any other drug's outcome — so one
drug's failure does not abort the sibling analyses. -/
theorem per_drug_isolation (pid now : String) (vs : List VariantRecord)
    (drugs : List Drug)
    (oracle oracle2 : Drug → String → Except PyError String) (dBad : Drug)
    (hagree : ∀ d, d ≠ dBad → oracle d = oracle2 d) :
    analysisLoop pid vs drugs oracle now =
      (drugs.filterMap (fun d =>
        match drugStep pid vs oracle now d with
        | .ok r => some (d, r)
        | .error _ => none),
       drugs.filterMap (fun d =>
        match drugStep pid vs oracle now d with
        | .error e =>
          some ("Error processing " ++ drugName d ++ ": " ++ pyStr e)
        | .ok _ => none))
    ∧ (analysisLoop pid vs drugs oracle now).1.length +
        (analysisLoop pid vs drugs oracle now).2.length = drugs.length
    ∧ ∀ d, d ≠ dBad →
        drugStep pid vs oracle now d = drugStep pid vs oracle2 now d := by
  refine ⟨analysisLoop_eq pid vs oracle now drugs,
    outcome_count pid vs oracle now drugs, ?_⟩
  intro d hd
  simp only [drugStep, hagree d hd]

/-- Collaborator oracle failing exactly on CODEINE. -/
def c8Oracle1 : Drug → String → Except PyError String
  | .codeine => fun _ => .error (.apiError "collaborator unreachable")
  | _ => fun _ => .ok "\x7b\"ok\": true\x7d"

/-- Collaborator oracle succeeding on every drug. -/
def c8Oracle2 : Drug → String → Except PyError String
  | _ => fun _ => .ok "\x7b\"ok\": true\x7d"

/-- Witness for C8: a two-drug batch in which the collaborator fails on
CODEINE still yields one outcome per drug. -/
theorem per_drug_isolation_witness :
    (analysisLoop "P1" [] [Drug.codeine, Drug.warfarin] c8Oracle1 "T").1.length +
      (analysisLoop "P1" [] [Drug.codeine, Drug.warfarin] c8Oracle1 "T").2.length
      = 2 :=
  (per_drug_isolation "P1" "T" [] [Drug.codeine, Drug.warfarin] c8Oracle1
    c8Oracle2 Drug.codeine (fun d hd => by
      cases d
      · exact absurd rfl hd
      all_goals rfl)).2.1

end Drugo
